import Mathlib

/-!
Verification of the incident-report generation pipeline.

The development shallowly embeds the data model and the computational core of
the repository: the metrics aggregator (`calculate_metrics` in
`utils/data_processing.py`), the groupby-based dimensional breakdowns and the
metric dictionary assembly of `IncidentReportGenerator._calculate_metrics`
(`report_generator.py`), the incident-table rendering, the request-level
schema validation (`api.py`), and the narrative-summary integration
(`utils/ai_integration.py`).  Timestamps are embedded as integer seconds since
an epoch (`pandas.Timestamp`), an absent timestamp (`NaT`) as `none`, and
floating-point results as rationals, with `none` standing for the IEEE `NaN`
that `pandas` produces when a mean is taken over an empty or all-`NaN`
selection.
-/

/-- One incident record, after parsing, with the column names used by the
report generator (`models.py` / `json_to_dataframe`).  `Created_On` is seconds
since the epoch; `Resolved_On` is `none` when the timestamp is absent
(`NaT`). -/
structure Incident where
  Incident_ID : String
  Title : String
  Priority : String
  Department : String
  Category : String
  Status : String
  Created_On : Int
  Resolved_On : Option Int
  SLA_Status : String
deriving Repr, DecidableEq

/-- Test from the source: `df[df['Status'] == 'Resolved']`. -/
def isResolved (r : Incident) : Bool :=
  r.Status == "Resolved"

/-- Test from the source: `df[df['SLA_Status'] == 'Within SLA']`. -/
def isWithinSLA (r : Incident) : Bool :=
  r.SLA_Status == "Within SLA"

/-- Resolution time in hours,
`(Resolved_On - Created_On).dt.total_seconds() / 3600`; `none` when
`Resolved_On` is `NaT` (the subtraction then yields `NaT`, hence `NaN`
hours). -/
def resolutionTimeHours (r : Incident) : Option ℚ :=
  r.Resolved_On.map (fun t => ((t - r.Created_On : Int) : ℚ) / 3600)

/-- Mean of a float column as `pandas` computes it with the default
`skipna=True`: `NaN` entries are ignored, and the mean of an empty or
all-`NaN` selection is `NaN` (here `none`). -/
def meanSkipNA (xs : List (Option ℚ)) : Option ℚ :=
  let v := xs.filterMap id
  if v.length = 0 then none else some (v.sum / v.length)

/-- Result record of `utils.data_processing.calculate_metrics`. -/
structure Metrics where
  total_incidents : Nat
  resolved_incidents : Nat
  resolution_rate : ℚ
  avg_resolution_time : Option ℚ
  sla_compliance_rate : ℚ
deriving Repr, DecidableEq

/-- Embedding of `utils.data_processing.calculate_metrics`: global counts,
resolution rate, average resolution time over the resolved subset (with the
`len(resolved_df) > 0` guard of the source, the mean itself skipping `NaN`
entries), and the SLA compliance rate, each rate guarded by
`if total_incidents > 0 ... else 0`. -/
def calculate_metrics (df : List Incident) : Metrics :=
  let total_incidents := df.length
  let resolved := (df.filter isResolved).length
  let resolution_rate : ℚ :=
    if total_incidents > 0 then (resolved : ℚ) / (total_incidents : ℚ) * 100 else 0
  let resolved_df := df.filter isResolved
  let avg_resolution_time : Option ℚ :=
    if resolved_df.length > 0 then meanSkipNA (resolved_df.map resolutionTimeHours)
    else some 0
  let sla_compliant := (df.filter isWithinSLA).length
  let sla_compliance_rate : ℚ :=
    if total_incidents > 0 then (sla_compliant : ℚ) / (total_incidents : ℚ) * 100 else 0
  { total_incidents := total_incidents
    resolved_incidents := resolved
    resolution_rate := resolution_rate
    avg_resolution_time := avg_resolution_time
    sla_compliance_rate := sla_compliance_rate }

/-! ### Grouping, as `pandas` `df.groupby(column)` performs it

`groupby` with the default `sort=True` enumerates the distinct key values in
ascending order of the Python string comparison (lexicographic by Unicode code
point) and, for each key, the rows carrying that key in their original order.
The code-point comparison is embedded directly so that every proof obligation
reduces in the kernel. -/

/-- Lexicographic comparison of character lists by Unicode code point, the
order Python uses on `str`. -/
def charsLe : List Char → List Char → Bool
  | [], _ => true
  | _ :: _, [] => false
  | a :: as, b :: bs =>
    if a.toNat < b.toNat then true
    else if b.toNat < a.toNat then false
    else charsLe as bs

/-- Lexicographic string comparison by code point. -/
def keyLe (a b : String) : Bool :=
  charsLe a.data b.data

/-- The sorted distinct key values of the batch under `k`, as `groupby`
enumerates them. -/
def groupKeys (df : List Incident) (k : Incident → String) : List String :=
  ((df.map k).dedup).insertionSort (fun a b => keyLe a b = true)

/-- Rows of the batch carrying key value `s`, in input order. -/
def groupFor (df : List Incident) (k : Incident → String) (s : String) : List Incident :=
  df.filter (fun r => k r == s)

/-- Embedding of `df.groupby(column)`: the sorted distinct keys, each paired
with its group of rows. -/
def groupBy (df : List Incident) (k : Incident → String) : List (String × List Incident) :=
  (groupKeys df k).map (fun s => (s, groupFor df k s))

/-- One row of the `groupby(...).agg(...)` result shared by the priority,
department, category and SLA-summary breakdowns of
`IncidentReportGenerator._calculate_metrics`: `Incident_ID: count`,
`Status: sum(x == "Resolved")`, `SLA_Status: sum(x == "Within SLA")`. -/
structure BreakdownRow where
  key : String
  total : Nat
  resolved : Nat
  sla_within : Nat
deriving Repr, DecidableEq

/-- Aggregation of one group into its breakdown row. -/
def rowFor (s : String) (g : List Incident) : BreakdownRow :=
  { key := s
    total := g.length
    resolved := (g.filter isResolved).length
    sla_within := (g.filter isWithinSLA).length }

/-- Embedding of the repeated `df.groupby(column).agg({...}).reset_index()`
pattern of `_calculate_metrics`, one row per distinct value of the chosen
dimension. -/
def breakdown (df : List Incident) (k : Incident → String) : List BreakdownRow :=
  (groupBy df k).map (fun p => rowFor p.1 p.2)

/-- Per-row compliance rate, the unguarded
`(row["SLA_Status"] / total) * 100` of the breakdown loops. -/
def complianceRate (row : BreakdownRow) : ℚ :=
  (row.sla_within : ℚ) / (row.total : ℚ) * 100

/-- Per-priority average resolution time of the priority loop:
`resolved_df[resolved_df["Priority"] == key]["resolution_time"].mean()` with
the `if not priority_resolved.empty else 0` guard. -/
def priorityAvgTime (df : List Incident) (s : String) : Option ℚ :=
  let priority_resolved := (df.filter isResolved).filter (fun r => r.Priority == s)
  if priority_resolved.length > 0 then
    meanSkipNA (priority_resolved.map resolutionTimeHours)
  else some 0

/-! ### The metric dictionary of `IncidentReportGenerator._calculate_metrics`

The Python function assigns `total`, `resolved` and `compliance_rate` before
its breakdown loops and then reuses those same variable names as loop-local
accumulators; the values placed in the returned dictionary are whatever the
last executed loop iterations left behind.  The embedding reproduces the
imperative reassignment with `List.foldl`, whose accumulator after the fold is
exactly the value of the variables after the loop. -/

/-- Modelled from the spec: `calculate_sla_compliance` is imported by
`report_generator.py` from `utils.data_processing` but its definition is
absent from the available sources.  Per the spec (§3, §4.2) it returns the
batch total, the within-SLA count, the breached count and the compliance rate
`count(sla_status == Within SLA) / total * 100` with the zero-total policy
(rate `0` when `total == 0`). -/
def calculate_sla_compliance (df : List Incident) : Nat × Nat × Nat × ℚ :=
  let total := df.length
  let within := (df.filter isWithinSLA).length
  let breached := total - within
  (total, within, breached,
    if total > 0 then (within : ℚ) / (total : ℚ) * 100 else 0)

/-- Effect of one breakdown loop on the shadowed variables
`(total, resolved, compliance_rate)`: each iteration overwrites all three from
the current row, so the fold keeps only the last row of a non-empty row list
and the initial values otherwise. -/
def loopShadow (init : Nat × Nat × ℚ) (rows : List BreakdownRow) : Nat × Nat × ℚ :=
  rows.foldl (fun _ row => (row.total, row.resolved, complianceRate row)) init

/-- Effect of the SLA-summary loop on the shadowed variables
`(total, compliance_rate)`; that loop does not assign `resolved`. -/
def loopShadowSLA (init : Nat × ℚ) (rows : List BreakdownRow) : Nat × ℚ :=
  rows.foldl (fun _ row => (row.total, complianceRate row)) init

/-- Scalar entries of the dictionary returned by `_calculate_metrics`
(`total_incidents`, `resolved`, `unresolved`, `avg_resolution_time`,
`sla_compliance_rate`).  `unresolved` is `total - resolved` over Python
integers, hence an integer that may be negative. -/
structure RGMetrics where
  total_incidents : Nat
  resolved : Nat
  unresolved : Int
  avg_resolution_time : Option ℚ
  sla_compliance_rate : ℚ
deriving Repr, DecidableEq

/-- Embedding of the scalar part of
`IncidentReportGenerator._calculate_metrics`: the initial global values from
`calculate_sla_compliance` and the `Status == 'Resolved'` count, the global
average resolution time over the resolved subset, then the four breakdown
loops whose loop bodies reassign the shadowed variables, and finally the
returned dictionary built from the variables as the loops left them. -/
def rgCalculateMetrics (df : List Incident) : RGMetrics :=
  let sla := calculate_sla_compliance df
  let total₀ := sla.1
  let compliance₀ := sla.2.2.2
  let resolved₀ := (df.filter isResolved).length
  let resolved_df := df.filter isResolved
  let avg_resolution_time : Option ℚ :=
    if resolved_df.length > 0 then meanSkipNA (resolved_df.map resolutionTimeHours)
    else some 0
  let afterPriority := loopShadow (total₀, resolved₀, compliance₀) (breakdown df Incident.Priority)
  let afterDept := loopShadow afterPriority (breakdown df Incident.Department)
  let afterCat := loopShadow afterDept (breakdown df Incident.Category)
  let afterSLA := loopShadowSLA (afterCat.1, afterCat.2.2) (breakdown df Incident.Priority)
  { total_incidents := afterSLA.1
    resolved := afterCat.2.1
    unresolved := (afterSLA.1 : Int) - (afterCat.2.1 : Int)
    avg_resolution_time := avg_resolution_time
    sla_compliance_rate := afterSLA.2 }

/-! ### The incident table of `_calculate_metrics` (lines 154-164) -/

/-- Rendering of the `Resolved_On` cell:
`row["Resolved_On"].strftime(...) if pd.notna(row["Resolved_On"]) else "N/A"`.
Timestamp formatting itself is embedded as decimal rendering of the epoch
value, which is irrelevant to the claims; the branch structure is the
point. -/
def renderResolvedOn (r : Incident) : String :=
  match r.Resolved_On with
  | some t => toString t
  | none => "N/A"

/-- One row of the incident list, in the pipe-separated column order of the
source. -/
def formatIncidentRow (r : Incident) : String :=
  r.Incident_ID ++ " | " ++ r.Title ++ " | " ++ r.Priority ++ " | " ++
    r.Department ++ " | " ++ r.Status ++ " | " ++ toString r.Created_On ++ " | " ++
    renderResolvedOn r ++ " | " ++ r.SLA_Status

/-- Embedding of the incident-list loop `for _, row in df.iterrows()`: one
row per record of the batch, in input order, with no sorting and no
truncation. -/
def incidentRows (df : List Incident) : List String :=
  df.map formatIncidentRow

/-! ### Request validation (`api.py`)

FastAPI validates the posted body against the pydantic models `Incident` and
`IncidentData` before the handler runs.  A raw record is an untyped key/value
map; it is embedded as a record of optional fields, `none` meaning the key is
absent from the payload.  Validation of one record requires every field except
`Resolution_Date` to be present; `incidents: List[Incident]` accepts a list of
any length, including the empty list. -/

/-- One raw record of the posted body before validation; `none` marks an
absent key.  Field names follow the pydantic `Incident` model of `api.py`. -/
structure RawIncident where
  ID : Option String
  Title : Option String
  Description : Option String
  Status : Option String
  Priority : Option String
  Department : Option String
  Category : Option String
  Created_Date : Option Int
  Resolution_Date : Option Int
  SLA_Status : Option String
deriving Repr, DecidableEq

/-- Error surface of the request path: pydantic rejection of the body
(`ValidationError`, the SchemaError analogue) or an exception inside the
handler mapped to HTTP 500. -/
inductive ApiError where
  | validationError : ApiError
  | internalError : ApiError
deriving Repr, DecidableEq

/-- Check from the pydantic model: `true` when some required field of the
record is missing (`Resolution_Date` is the only optional field). -/
def missingRequired (r : RawIncident) : Bool :=
  r.ID.isNone || r.Title.isNone || r.Description.isNone || r.Status.isNone ||
    r.Priority.isNone || r.Department.isNone || r.Category.isNone ||
    r.Created_Date.isNone || r.SLA_Status.isNone

/-- Validation of one record against the pydantic `Incident` model: every
required field must be present, and on success the typed record is built from
the present values (the `getD` defaults are unreachable on the success
branch). -/
def validateRaw (r : RawIncident) : Except ApiError Incident :=
  if missingRequired r then .error .validationError
  else
    .ok { Incident_ID := r.ID.getD "", Title := r.Title.getD "",
          Priority := r.Priority.getD "", Department := r.Department.getD "",
          Category := r.Category.getD "", Status := r.Status.getD "",
          Created_On := r.Created_Date.getD 0,
          Resolved_On := r.Resolution_Date, SLA_Status := r.SLA_Status.getD "" }

/-- Validation of the posted batch (`IncidentData`): each record is validated
in order; the list itself may have any length, so the empty batch passes. -/
def validateBatchRaw : List RawIncident → Except ApiError (List Incident)
  | [] => .ok []
  | r :: rs => do
    let i ← validateRaw r
    let is ← validateBatchRaw rs
    .ok (i :: is)

/-! ### Narrative summary (`utils/ai_integration.py`) and report assembly -/

/-- Failure modes of the external summary provider as `generate_summary`
distinguishes them. -/
inductive ProviderError where
  | apiError : ProviderError
  | authError : ProviderError
deriving Repr, DecidableEq

/-- Fatal errors of the report pipeline.  `valueError` is the module-level
`raise ValueError("OPENAI_API_KEY environment variable is not set")` executed
when `utils/ai_integration.py` is imported without the key. -/
inductive PipelineError where
  | valueError : String → PipelineError
deriving Repr, DecidableEq

/-- Import-time behaviour of `utils/ai_integration.py` (lines 12-16): with no
`OPENAI_API_KEY` in the environment the module raises `ValueError`, so nothing
importing it — in particular `report_generator.py` — can load. -/
def aiIntegrationImport (openai_api_key : Option String) : Except PipelineError Unit :=
  match openai_api_key with
  | none => .error (.valueError "OPENAI_API_KEY environment variable is not set")
  | some _ => .ok ()

/-- Fixed fallback narrative substituted when the provider fails. -/
def fallbackSummary : String :=
  "Summary generation is currently unavailable."

/-- Modelled from the spec: the class `AISummarizer` with its method
`generate_thai_summary` is imported by `report_generator.py` from
`utils.ai_integration` but is absent from the available sources.  Per the spec
(§6), on provider failure the narrative step substitutes a fixed fallback
string and continues; on success it returns the provider string. -/
def generate_thai_summary (provider : Except ProviderError String) : String :=
  match provider with
  | .ok s => s
  | .error _ => fallbackSummary

/-- The assembled report: the narrative, the scalar metrics and the rendered
incident table (the remaining sections are further renderings of the same
breakdown data). -/
structure Report where
  thai_summary : String
  metrics : RGMetrics
  incident_list : List String
deriving Repr, DecidableEq

/-- Embedding of `IncidentReportGenerator.generate_report` for an in-memory
batch: the import of the AI-integration module must have succeeded, then the
metrics, the narrative and the rendered report are produced in order.  The
provider outcome is passed as a value since the external call is outside the
core. -/
def generate_report (openai_api_key : Option String)
    (provider : Except ProviderError String) (df : List Incident) :
    Except PipelineError Report := do
  let _ ← aiIntegrationImport openai_api_key
  let metrics := rgCalculateMetrics df
  let thai := generate_thai_summary provider
  .ok { thai_summary := thai, metrics := metrics, incident_list := incidentRows df }

/-- Request-level pipeline of `POST /generate-report`: pydantic validation of
the body, then report generation inside the handler, handler exceptions
surfacing as HTTP 500. -/
def apiGenerateReport (openai_api_key : Option String)
    (provider : Except ProviderError String) (body : List RawIncident) :
    Except ApiError Report :=
  match validateBatchRaw body with
  | .error e => .error e
  | .ok df =>
    match generate_report openai_api_key provider df with
    | .error _ => .error .internalError
    | .ok rep => .ok rep

/-! ### Statements taken from the wording of the spec

The following definitions formalise what the spec asserts, for comparison
against the definitions embedded from the source.  They are used only to state
refuted claims precisely. -/

/-- Formalised from the wording of the spec (§4.3): row `a` may precede row
`b` when `a` has the strictly larger total, or the totals tie and `a.key` is
lexicographically no larger. -/
def specBefore (a b : BreakdownRow) : Bool :=
  (b.total < a.total) || (a.total == b.total && keyLe a.key b.key)

/-- Formalised from the wording of the spec (§4.3): the row list is ordered by
descending total with lexicographic tie-break (executable form, adjacent rows
each related by `specBefore`). -/
def specOrderedRows : List BreakdownRow → Bool
  | [] => true
  | [_] => true
  | a :: b :: rest => specBefore a b && specOrderedRows (b :: rest)

/-- Formalised from the wording of the spec (§3): a record is eligible for
resolution-time statistics when it is resolved, has a present `resolved_at`,
and does not violate `resolved_at >= created_at`. -/
def specEligible (r : Incident) : Bool :=
  isResolved r &&
    (match r.Resolved_On with
     | some t => decide (r.Created_On ≤ t)
     | none => false)

/-- Formalised from the wording of the spec: the average resolution time over
eligible records only, `0` when no record is eligible. -/
def specAvgResolutionTime (df : List Incident) : Option ℚ :=
  let elig := df.filter specEligible
  if elig.length > 0 then meanSkipNA (elig.map resolutionTimeHours) else some 0

/-- Formalised from the wording of the spec (§4.4): the number of rows the
recent-incidents table should contain with the fixed `K = 5`. -/
def specRecentRowCount (df : List Incident) : Nat :=
  min 5 df.length

/-- List of values the mean of `calculate_metrics` is taken over: the
`filterMap` body of `meanSkipNA` applied to the resolved subset. -/
def eligibleTimes (df : List Incident) : List ℚ :=
  ((df.filter isResolved).map resolutionTimeHours).filterMap id

/-! ### Concrete batches used in the scenario proofs and refutations -/

/-- Record constructor shorthand for concrete batches. -/
def mkInc (id title p dept cat st : String) (c : Int) (rOn : Option Int)
    (sla : String) : Incident :=
  { Incident_ID := id, Title := title, Priority := p, Department := dept,
    Category := cat, Status := st, Created_On := c, Resolved_On := rOn,
    SLA_Status := sla }

/-- The four-incident scenario batch of the spec (§8). -/
def batch4 : List Incident :=
  [ mkInc "INC1" "a" "High" "IT" "Network" "Resolved" 0 (some 3600) "Within SLA",
    mkInc "INC2" "b" "High" "IT" "Network" "Resolved" 0 (some 7200) "Within SLA",
    mkInc "INC3" "c" "High" "IT" "Network" "Unresolved" 0 none "Breached",
    mkInc "INC4" "d" "Low" "HR" "Software" "Resolved" 0 (some 3600) "Within SLA" ]

/-- Batch with one `High` and two `Low` incidents: descending-total order
would put `Low` first, while the grouping enumerates `High` first. -/
def batchC2 : List Incident :=
  [ mkInc "INC1" "a" "High" "IT" "Network" "Resolved" 0 (some 3600) "Within SLA",
    mkInc "INC2" "b" "Low" "IT" "Network" "Resolved" 0 (some 3600) "Within SLA",
    mkInc "INC3" "c" "Low" "HR" "Software" "Unresolved" 0 none "Breached" ]

/-- Batch of one resolved record whose resolution timestamp is absent. -/
def batchC3 : List Incident :=
  [ mkInc "INC1" "a" "High" "IT" "Network" "Resolved" 0 none "Within SLA" ]

/-- Unresolved record of the six-incident batch. -/
def inc6 : Incident :=
  mkInc "INC6" "f" "Low" "IT" "Network" "Unresolved" 18000 none "Breached"

/-- Six incidents with ascending creation times, the last one unresolved. -/
def batch6 : List Incident :=
  [ mkInc "INC1" "a" "High" "IT" "Network" "Resolved" 0 (some 3600) "Within SLA",
    mkInc "INC2" "b" "High" "IT" "Network" "Resolved" 3600 (some 7200) "Within SLA",
    mkInc "INC3" "c" "Low" "HR" "Software" "Resolved" 7200 (some 10800) "Within SLA",
    mkInc "INC4" "d" "Low" "HR" "Software" "Resolved" 10800 (some 14400) "Within SLA",
    mkInc "INC5" "e" "Medium" "IT" "Hardware" "Resolved" 14400 (some 18000) "Within SLA",
    inc6 ]

/-- Record with a priority string outside the expected taxonomy. -/
def incU : Incident :=
  mkInc "INC2" "b" "Urgent" "IT" "Hardware" "Unresolved" 0 none "Breached"

/-- Batch containing an unexpected priority value. -/
def batchU : List Incident :=
  [ mkInc "INC1" "a" "High" "IT" "Network" "Resolved" 0 (some 3600) "Within SLA",
    incU ]

/-- Batch on which the loop-variable shadowing of `_calculate_metrics`
produces a negative `unresolved` entry: the lexicographically last priority
group has total `1` while the lexicographically last category group has `2`
resolved records. -/
def batchC8 : List Incident :=
  [ mkInc "INC1" "a" "High" "IT" "Software" "Resolved" 0 (some 3600) "Within SLA",
    mkInc "INC2" "b" "High" "IT" "Software" "Resolved" 0 (some 3600) "Within SLA",
    mkInc "INC3" "c" "Low" "IT" "Hardware" "Unresolved" 0 none "Breached" ]

/-- Record resolved two hours before its creation time. -/
def incC9 : Incident :=
  mkInc "INC1" "a" "High" "IT" "Network" "Resolved" 7200 (some 0) "Within SLA"

/-- Batch with one invariant-violating record (resolution before creation,
contributing `-2` hours) and one ordinary resolved record (`+4` hours). -/
def batchC9 : List Incident :=
  [ incC9,
    mkInc "INC2" "b" "High" "IT" "Network" "Resolved" 0 (some 14400) "Within SLA" ]

/-- Raw request record lacking the required `Status` field. -/
def rawMissing : RawIncident :=
  { ID := some "INC1", Title := some "t", Description := some "d", Status := none,
    Priority := some "High", Department := some "IT", Category := some "Network",
    Created_Date := some 0, Resolution_Date := none, SLA_Status := some "Within SLA" }

/-! ### Order-theoretic facts about the key comparison and the grouping -/

theorem charsLe_total (l m : List Char) : charsLe l m = true ∨ charsLe m l = true := by
  induction l generalizing m with
  | nil => left; rfl
  | cons a as ih =>
    cases m with
    | nil => right; rfl
    | cons b bs =>
      simp only [charsLe]
      rcases Nat.lt_trichotomy a.toNat b.toNat with h | h | h
      · left; simp [h]
      · have h1 : ¬ a.toNat < b.toNat := by omega
        have h2 : ¬ b.toNat < a.toNat := by omega
        rcases ih bs with hc | hc
        · left; simp [h1, h2, hc]
        · right; simp [h1, h2, hc]
      · have h1 : ¬ a.toNat < b.toNat := by omega
        right; simp [h, h1]

theorem charsLe_trans (l m n : List Char) (h1 : charsLe l m = true)
    (h2 : charsLe m n = true) : charsLe l n = true := by
  induction l generalizing m n with
  | nil => rfl
  | cons a as ih =>
    cases m with
    | nil => simp [charsLe] at h1
    | cons b bs =>
      cases n with
      | nil => simp [charsLe] at h2
      | cons c cs =>
        simp only [charsLe] at h1 h2 ⊢
        by_cases hab : a.toNat < b.toNat
        · by_cases hbc : b.toNat < c.toNat
          · simp [Nat.lt_trans hab hbc]
          · by_cases hcb : c.toNat < b.toNat
            · simp [hbc, hcb] at h2
            · have hac : a.toNat < c.toNat := by omega
              simp [hac]
        · by_cases hba : b.toNat < a.toNat
          · simp [hab, hba] at h1
          · by_cases hbc : b.toNat < c.toNat
            · have hac : a.toNat < c.toNat := by omega
              simp [hac]
            · by_cases hcb : c.toNat < b.toNat
              · simp [hbc, hcb] at h2
              · have hac1 : ¬ a.toNat < c.toNat := by omega
                have hac2 : ¬ c.toNat < a.toNat := by omega
                simp only [hab, hba, if_false] at h1
                simp only [hbc, hcb, if_false] at h2
                simp [hac1, hac2, ih bs cs h1 h2]

theorem groupKeys_perm (df : List Incident) (k : Incident → String) :
    (groupKeys df k).Perm ((df.map k).dedup) :=
  List.perm_insertionSort _ _

theorem mem_groupKeys {df : List Incident} {k : Incident → String} {s : String} :
    s ∈ groupKeys df k ↔ ∃ r ∈ df, k r = s := by
  unfold groupKeys
  rw [List.mem_insertionSort, List.mem_dedup, List.mem_map]

theorem nodup_groupKeys (df : List Incident) (k : Incident → String) :
    (groupKeys df k).Nodup :=
  (groupKeys_perm df k).nodup_iff.mpr (List.nodup_dedup _)

theorem sorted_groupKeys (df : List Incident) (k : Incident → String) :
    List.Sorted (fun a b => keyLe a b = true) (groupKeys df k) := by
  have htot : IsTotal String (fun a b => keyLe a b = true) :=
    ⟨fun a b => charsLe_total a.data b.data⟩
  have htrans : IsTrans String (fun a b => keyLe a b = true) :=
    ⟨fun a b c => charsLe_trans a.data b.data c.data⟩
  exact List.sorted_insertionSort _ _

theorem mem_groupFor_self {df : List Incident} {k : Incident → String}
    {r : Incident} (h : r ∈ df) : r ∈ groupFor df k (k r) := by
  unfold groupFor
  rw [List.mem_filter]
  exact ⟨h, by simp⟩

theorem groupFor_key {df : List Incident} {k : Incident → String} {s : String}
    {r : Incident} (h : r ∈ groupFor df k s) : k r = s ∧ r ∈ df := by
  unfold groupFor at h
  rw [List.mem_filter] at h
  exact ⟨by simpa using h.2, h.1⟩

theorem length_groupFor (df : List Incident) (k : Incident → String) (s : String) :
    (groupFor df k s).length = (df.map k).count s := by
  induction df with
  | nil => rfl
  | cons r rs ih =>
    unfold groupFor at *
    by_cases h : k r = s
    · simp [List.filter_cons, List.count_cons, h, ih]
    · simp [List.filter_cons, List.count_cons, h, ih, Ne.symm h]

theorem breakdown_keys (df : List Incident) (k : Incident → String) :
    (breakdown df k).map BreakdownRow.key = groupKeys df k := by
  unfold breakdown groupBy rowFor
  simp only [List.map_map]
  exact List.map_id (groupKeys df k)

theorem sum_breakdown_total (df : List Incident) (k : Incident → String) :
    ((breakdown df k).map BreakdownRow.total).sum = df.length := by
  have hmap : (breakdown df k).map BreakdownRow.total
      = (groupKeys df k).map (fun s => (groupFor df k s).length) := by
    unfold breakdown groupBy rowFor
    simp [List.map_map, Function.comp]
  rw [hmap]
  calc ((groupKeys df k).map (fun s => (groupFor df k s).length)).sum
      = ((groupKeys df k).map (fun s => (df.map k).count s)).sum := by
        congr 1
        exact List.map_congr_left (fun s _ => length_groupFor df k s)
    _ = (((df.map k).dedup).map (fun s => (df.map k).count s)).sum :=
        ((groupKeys_perm df k).map _).sum_eq
    _ = (df.map k).length := List.sum_map_count_dedup_eq_length _
    _ = df.length := List.length_map _ _

theorem mem_breakdown_iff {df : List Incident} {k : Incident → String}
    {row : BreakdownRow} :
    row ∈ breakdown df k ↔ ∃ s ∈ groupKeys df k, rowFor s (groupFor df k s) = row := by
  unfold breakdown groupBy
  simp [List.map_map, Function.comp]

theorem total_pos_of_mem_breakdown {df : List Incident} {k : Incident → String}
    {row : BreakdownRow} (h : row ∈ breakdown df k) : 1 ≤ row.total := by
  obtain ⟨s, hs, hrow⟩ := mem_breakdown_iff.mp h
  obtain ⟨r, hr, hk⟩ := mem_groupKeys.mp hs
  have hmem : r ∈ groupFor df k s := by
    rw [← hk]; exact mem_groupFor_self hr
  have hpos : 0 < (groupFor df k s).length :=
    List.length_pos.mpr (List.ne_nil_of_mem hmem)
  rw [← hrow]
  simpa [rowFor] using hpos

/-! ### Helper lemmas for the validation path -/

theorem validateRaw_missing {r : RawIncident} (h : missingRequired r = true) :
    validateRaw r = .error .validationError := by
  simp [validateRaw, h]

theorem validateRaw_error_eq {r : RawIncident} {e : ApiError}
    (h : validateRaw r = .error e) : e = .validationError := by
  unfold validateRaw at h
  by_cases hm : missingRequired r
  · simp [hm] at h
    exact h.symm
  · simp [hm] at h

theorem validateBatch_error {body : List RawIncident} {r : RawIncident}
    (hmem : r ∈ body) (hmiss : missingRequired r = true) :
    validateBatchRaw body = .error .validationError := by
  induction body with
  | nil => cases hmem
  | cons r0 rest ih =>
    rcases List.mem_cons.mp hmem with h | h
    · subst h
      simp only [validateBatchRaw, validateRaw_missing hmiss]
      rfl
    · cases hv : validateRaw r0 with
      | error e =>
        rw [validateRaw_error_eq hv] at hv
        simp only [validateBatchRaw, hv]
        rfl
      | ok i =>
        simp only [validateBatchRaw, hv, ih h]
        rfl

/-! ### The claims -/

/-- C1: on the four-incident scenario batch (two High resolved within SLA, one
High unresolved breached, one Low resolved within SLA) the global metrics of
`calculate_metrics` are `total = 4`, `resolved = 3`, `resolution_rate = 75`
and `sla_compliance_rate = 75`, and the priority grouping has exactly the two
rows High (total 3) before Low (total 1). -/
theorem claim1_scenario :
    (calculate_metrics batch4).total_incidents = 4 ∧
    (calculate_metrics batch4).resolved_incidents = 3 ∧
    (calculate_metrics batch4).resolution_rate = 75 ∧
    (calculate_metrics batch4).sla_compliance_rate = 75 ∧
    (breakdown batch4 Incident.Priority).map (fun row => (row.key, row.total))
      = [("High", 3), ("Low", 1)] := by
  refine ⟨by decide, by decide, ?_, ?_, by decide⟩
  · have h : (calculate_metrics batch4).resolution_rate
        = ((3 : ℕ) : ℚ) / ((4 : ℕ) : ℚ) * 100 := rfl
    rw [h]; norm_num
  · have h : (calculate_metrics batch4).sla_compliance_rate
        = ((3 : ℕ) : ℚ) / ((4 : ℕ) : ℚ) * 100 := rfl
    rw [h]; norm_num

/-- C2 counterexample: on a batch with one High and two Low incidents the
grouping enumerates High (total 1) before Low (total 2), so the rows are not
ordered by descending total with lexicographic tie-break as the claim
states. -/
theorem claim2_cex :
    specOrderedRows (breakdown batchC2 Incident.Priority) = false ∧
    (breakdown batchC2 Incident.Priority).map (fun row => (row.key, row.total))
      = [("High", 1), ("Low", 2)] := by
  decide

/-- C2 (amended): each dimension breakdown produces its rows ordered by
ascending lexicographic dimension value, with distinct keys; row ordering and
the aggregates are therefore well-defined and identical across runs on
identical input, the computation being a pure function of the batch. -/
theorem claim2_amended (df : List Incident) :
    (List.Sorted (fun a b => keyLe a b = true)
        ((breakdown df Incident.Priority).map BreakdownRow.key) ∧
      ((breakdown df Incident.Priority).map BreakdownRow.key).Nodup) ∧
    (List.Sorted (fun a b => keyLe a b = true)
        ((breakdown df Incident.Department).map BreakdownRow.key) ∧
      ((breakdown df Incident.Department).map BreakdownRow.key).Nodup) ∧
    (List.Sorted (fun a b => keyLe a b = true)
        ((breakdown df Incident.Category).map BreakdownRow.key) ∧
      ((breakdown df Incident.Category).map BreakdownRow.key).Nodup) := by
  refine ⟨⟨?_, ?_⟩, ⟨?_, ?_⟩, ?_, ?_⟩ <;> rw [breakdown_keys] <;>
    first
      | exact sorted_groupKeys _ _
      | exact nodup_groupKeys _ _

/-- C3: evaluation at the failing input.  A batch of one resolved record with
no resolution timestamp has a non-empty resolved subset, so the guard of the
source takes the mean branch, and the mean over the all-`NaN` selection is
`NaN` (embedded as `none`), not the `0` the claim requires. -/
theorem claim3_eval :
    (batchC3.filter isResolved).length = 1 ∧
    (calculate_metrics batchC3).avg_resolution_time = none ∧
    (rgCalculateMetrics batchC3).avg_resolution_time = none := by
  decide

/-- C4 counterexample: the empty batch passes schema validation (the pydantic
`incidents` list field accepts the empty list), contradicting the claim that
every empty input batch fails with a `SchemaError`. -/
theorem claim4_cex : validateBatchRaw [] = Except.ok [] := rfl

/-- C4 (amended): a batch in which some record is missing a required field
fails schema validation, and the request pipeline then produces no report;
the empty batch, however, is accepted by validation. -/
theorem claim4_amended (body : List RawIncident) (r : RawIncident)
    (hmem : r ∈ body) (hmiss : missingRequired r = true) :
    validateBatchRaw body = .error .validationError ∧
    ∀ key provider rep, apiGenerateReport key provider body ≠ .ok rep := by
  have h := validateBatch_error hmem hmiss
  refine ⟨h, ?_⟩
  intro key provider rep hok
  unfold apiGenerateReport at hok
  rw [h] at hok
  cases hok

/-- C4 witness: the amended claim applied to a one-record body whose record
lacks the required `Status` field. -/
theorem claim4_witness :
    validateBatchRaw [rawMissing] = .error .validationError :=
  (claim4_amended [rawMissing] rawMissing (by decide) (by decide)).1

/-- C5 counterexample: with no `OPENAI_API_KEY` in the environment — one way
the narrative provider can be unavailable — the integration module raises
`ValueError` at import, so report generation aborts and no report is
produced, contradicting the claim that provider failure never aborts report
generation. -/
theorem claim5_cex :
    generate_report none (Except.error ProviderError.authError) batch4 =
      Except.error (PipelineError.valueError
        "OPENAI_API_KEY environment variable is not set") := rfl

/-- C5 (amended): when the integration module loaded (an API key is present)
and the provider call fails at request time, the fixed fallback string is
substituted and a complete report is still produced, for every batch and
every provider failure mode.  The fallback substitution lives in the
`AISummarizer` class modelled from the spec, its code being absent from the
available sources. -/
theorem claim5_amended (key : String) (e : ProviderError) (df : List Incident) :
    generate_report (some key) (Except.error e) df =
      Except.ok { thai_summary := fallbackSummary,
                  metrics := rgCalculateMetrics df,
                  incident_list := incidentRows df } := rfl

/-- C6 counterexample: on a six-incident batch the incident table has six
rows, not the five the claimed top-K selection would produce, and the absent
resolved timestamp renders as "N/A", not "not yet resolved". -/
theorem claim6_cex :
    (incidentRows batch6).length = 6 ∧ specRecentRowCount batch6 = 5 ∧
    (6 : Nat) ≠ 5 ∧
    renderResolvedOn inc6 = "N/A" ∧ "N/A" ≠ "not yet resolved" := by
  decide

/-- C6 (amended): the incident table contains one row per record of the
batch, in input order without truncation or sorting, and a record with an
absent resolved timestamp is rendered with the explicit non-blank placeholder
"N/A". -/
theorem claim6_amended (df : List Incident) (r : Incident)
    (hmem : r ∈ df) (habs : r.Resolved_On = none) :
    (incidentRows df).length = df.length ∧
    formatIncidentRow r ∈ incidentRows df ∧
    renderResolvedOn r = "N/A" ∧ "N/A" ≠ "" := by
  refine ⟨List.length_map _ _, List.mem_map_of_mem _ hmem, ?_, by decide⟩
  simp [renderResolvedOn, habs]

/-- C6 witness: the amended claim applied to the six-incident batch and its
unresolved record. -/
theorem claim6_witness :
    (incidentRows batch6).length = batch6.length ∧
    formatIncidentRow inc6 ∈ incidentRows batch6 ∧
    renderResolvedOn inc6 = "N/A" ∧ "N/A" ≠ "" :=
  claim6_amended batch6 inc6 (by decide) rfl

/-- C7: for every batch and every dimension selector, the breakdown is a
partition of the batch: the row totals sum to the batch size, every record
lands in the row of its own key, row keys are distinct, the row keys are
exactly the distinct values observed in the batch (any string, including
unexpected priority values, yields its own row), and every group member
carries the key of its group. -/
theorem claim7_partition (df : List Incident) (k : Incident → String) :
    ((breakdown df k).map BreakdownRow.total).sum = df.length ∧
    (∀ r ∈ df, k r ∈ (breakdown df k).map BreakdownRow.key) ∧
    ((breakdown df k).map BreakdownRow.key).Nodup ∧
    (∀ s, s ∈ (breakdown df k).map BreakdownRow.key ↔ ∃ r ∈ df, k r = s) ∧
    (∀ s g, (s, g) ∈ groupBy df k → ∀ r ∈ g, k r = s ∧ r ∈ df) := by
  refine ⟨sum_breakdown_total df k, ?_, ?_, ?_, ?_⟩
  · intro r hr
    rw [breakdown_keys]
    exact mem_groupKeys.mpr ⟨r, hr, rfl⟩
  · rw [breakdown_keys]
    exact nodup_groupKeys df k
  · intro s
    rw [breakdown_keys]
    exact mem_groupKeys
  · intro s g hsg r hrg
    unfold groupBy at hsg
    rw [List.mem_map] at hsg
    obtain ⟨s', _, heq⟩ := hsg
    have h1 : s' = s := congrArg Prod.fst heq
    have h2 : groupFor df k s' = g := by
      have := congrArg Prod.snd heq
      simpa using this
    subst h1
    rw [← h2] at hrg
    exact groupFor_key hrg

/-- C7 witness: the unexpected priority string of the two-record batch yields
its own row. -/
theorem claim7_witness :
    "Urgent" ∈ (breakdown batchU Incident.Priority).map BreakdownRow.key :=
  (claim7_partition batchU Incident.Priority).2.1 incU (by decide)

/-- C8: evaluation at the failing input.  On a three-record batch the
loop-variable shadowing of `_calculate_metrics` makes the returned dictionary
report `total_incidents = 1` (the last priority group) and `resolved = 2`
(the last category group), hence `unresolved = -1`, a negative count. -/
theorem claim8_eval :
    batchC8.length = 3 ∧
    (rgCalculateMetrics batchC8).total_incidents = 1 ∧
    (rgCalculateMetrics batchC8).resolved = 2 ∧
    (rgCalculateMetrics batchC8).unresolved = -1 ∧
    ¬(0 ≤ (rgCalculateMetrics batchC8).unresolved) := by
  decide

/-- C9 counterexample: a record resolved two hours before creation is
included in the resolution-time mean (global and per-priority), which becomes
`1` hour instead of the `4` hours that exclusion per the claim would give. -/
theorem claim9_cex :
    (calculate_metrics batchC9).avg_resolution_time = some 1 ∧
    specAvgResolutionTime batchC9 = some 4 ∧
    priorityAvgTime batchC9 "High" = some 1 ∧
    (some (1 : ℚ)) ≠ some 4 := by
  refine ⟨?_, ?_, ?_, by norm_num⟩
  · simp +decide [calculate_metrics, batchC9, incC9, mkInc, meanSkipNA,
      resolutionTimeHours, isResolved]
    norm_num
  · simp +decide [specAvgResolutionTime, batchC9, incC9, mkInc, meanSkipNA,
      resolutionTimeHours, specEligible, isResolved]
    norm_num
  · simp +decide [priorityAvgTime, batchC9, incC9, mkInc, meanSkipNA,
      resolutionTimeHours, isResolved]
    norm_num

/-- C9 (amended): a record with both timestamps present and resolution before
creation is still counted in the totals and processing completes, but its
negative duration is included in the list of values the resolution-time mean
is computed over, rather than excluded. -/
theorem claim9_amended (df : List Incident) (r : Incident) (t : Int)
    (hmem : r ∈ df) (hst : r.Status = "Resolved") (hres : r.Resolved_On = some t)
    (hlt : t < r.Created_On) :
    (calculate_metrics df).total_incidents = df.length ∧
    ∃ q, resolutionTimeHours r = some q ∧ q < 0 ∧ q ∈ eligibleTimes df := by
  refine ⟨rfl, ((t - r.Created_On : ℤ) : ℚ) / 3600, ?_, ?_, ?_⟩
  · simp [resolutionTimeHours, hres]
  · apply div_neg_of_neg_of_pos
    · exact_mod_cast sub_neg.mpr hlt
    · norm_num
  · unfold eligibleTimes
    rw [List.mem_filterMap]
    refine ⟨some (((t - r.Created_On : ℤ) : ℚ) / 3600), ?_, rfl⟩
    rw [List.mem_map]
    refine ⟨r, ?_, ?_⟩
    · rw [List.mem_filter]
      exact ⟨hmem, by simp [isResolved, hst]⟩
    · simp [resolutionTimeHours, hres]

/-- C9 witness: the amended claim applied to the two-record batch and its
invariant-violating record. -/
theorem claim9_witness :
    (calculate_metrics batchC9).total_incidents = batchC9.length ∧
    ∃ q, resolutionTimeHours incC9 = some q ∧ q < 0 ∧ q ∈ eligibleTimes batchC9 :=
  claim9_amended batchC9 incC9 0 (by decide) rfl rfl (by decide)

/-- C10: every row of every dimension breakdown describes a non-empty group,
so its total is at least one and the unguarded division of the per-group
compliance rate never has a zero denominator. -/
theorem claim10_group_total_pos (df : List Incident) (k : Incident → String)
    (row : BreakdownRow) (h : row ∈ breakdown df k) :
    1 ≤ row.total ∧ ((row.total : ℚ)) ≠ 0 := by
  have h1 := total_pos_of_mem_breakdown h
  exact ⟨h1, Nat.cast_ne_zero.mpr (by omega)⟩

/-- C10 witness: the theorem applied to the High row of the scenario
batch. -/
theorem claim10_witness :
    1 ≤ (BreakdownRow.mk "High" 3 2 2).total ∧
    (((BreakdownRow.mk "High" 3 2 2).total : ℚ)) ≠ 0 :=
  claim10_group_total_pos batch4 Incident.Priority _ (by decide)
